import Mathlib

/-!
ElevationColorMap (Augmented Reality Sandbox): a shallow embedding.

The development follows `src/ElevationColorMap.cpp`:

* `ElevationColorMap.calcTexturePlane` (lines 165-175), in exact rational arithmetic;
* `ElevationColorMap.bindTexture` (lines 183-202), as a function returning the list of GL
  calls it issues and the updated per-context data item;
* `ElevationColorMap.load` (lines 60-163), over a character-level model of the token reader it
  drives.

Classes of the Vrui toolkit that the file uses but that are not part of the repository
(`IO::ValueSource`, `GLColorMap`, `Geometry::Plane`, the GL entry points) are modelled by the
definitions of the first sections; each says what it stands for.
-/

namespace SARndbox

/-! ## Scalars, colours, planes -/

/-- The scalar type: `Scalar`, `GLdouble` and `GLfloat` values are all taken as exact
rationals, so conversions between them are the identity. -/
abbrev Scalar := ℚ

/-- An RGBA colour, `GLColorMap::Color`: four components indexed `0..3`. -/
structure Color where
  c0 : Scalar
  c1 : Scalar
  c2 : Scalar
  c3 : Scalar
  deriving DecidableEq

/-- A camera-space plane, `Geometry::Plane`: `getNormal()` and `getOffset()`. -/
structure Plane where
  normal : Fin 3 → Scalar
  offset : Scalar

/-! ## The token reader driven by `load` -/

/-- What `load` can throw. `numberError` is the `NumberError` exception of
`IO::ValueSource::readNumber`; `formatError line` is the `std::runtime_error` raised by
`Misc::throwStdErr("ElevationColorMap: Color map format error in line %d of file %s", ...)`.
`fuelExhausted` belongs to the bounded model of the `while` loops only; `load_total` shows it
is never returned. -/
inductive LoadException where
  | numberError
  | formatError (line : Int)
  | fuelExhausted
  deriving DecidableEq

deriving instance DecidableEq for Except

/-- Character-level model of the Vrui class `IO::ValueSource` (external to the repository).
`chars` is the input not yet consumed: its head is the reader's look-ahead character and the
empty list is end of file. `punctuation` is the set installed by `setPunctuation`. -/
structure ValueSource where
  chars : List Char
  punctuation : List Char

namespace ValueSource

/-- A character is skipped as whitespace when it is a C `isspace` character that has not
been declared punctuation. -/
def isWhitespace (s : ValueSource) (c : Char) : Bool :=
  (c == ' ' || c == '\t' || c == '\n' || c == '\x0b' || c == '\x0c' || c == '\r')
    && !(s.punctuation.contains c)

/-- The call `setPunctuation(p)`: the characters of `p` become single-character tokens. -/
def setPunctuation (s : ValueSource) (p : List Char) : ValueSource :=
  { s with punctuation := p }

/-- The call `skipWs()`: drops leading whitespace. -/
def skipWs (s : ValueSource) : ValueSource :=
  { s with chars := s.chars.dropWhile s.isWhitespace }

/-- The call `eof()`: the whole input has been read. -/
def eof (s : ValueSource) : Bool := s.chars.isEmpty

/-- Value of a run of decimal digits. -/
def digitsValue (ds : List Char) : Nat :=
  ds.foldl (fun n c => 10 * n + (c.toNat - '0'.toNat)) 0

/-- The call `readNumber()`: an optional sign, integral digits, an optional period with
fraction digits, an optional exponent, then trailing whitespace is skipped. The result `none`
stands for the `NumberError` exception, thrown when neither the integral nor the fraction
part has a digit, or when an exponent mark is followed by no digit. -/
def readNumber (s : ValueSource) : Option (Scalar × ValueSource) :=
  let negated := s.chars.head? == some '-'
  let cs := if s.chars.head? == some '-' || s.chars.head? == some '+' then s.chars.tail
            else s.chars
  let ip := cs.takeWhile Char.isDigit
  let cs := cs.dropWhile Char.isDigit
  let hasPeriod := cs.head? == some '.'
  let fp := if hasPeriod then cs.tail.takeWhile Char.isDigit else []
  let cs := if hasPeriod then cs.tail.dropWhile Char.isDigit else cs
  if ip.isEmpty && fp.isEmpty then none
  else
    let result : Scalar := (digitsValue ip : Scalar) + (digitsValue fp : Scalar) / 10 ^ fp.length
    let result := if negated then -result else result
    if cs.head? == some 'e' || cs.head? == some 'E' then
      let cs := cs.tail
      let exponentNegated := cs.head? == some '-'
      let cs := if cs.head? == some '-' || cs.head? == some '+' then cs.tail else cs
      let ep := cs.takeWhile Char.isDigit
      if ep.isEmpty then none
      else
        let result := if exponentNegated then result / 10 ^ digitsValue ep
                      else result * 10 ^ digitsValue ep
        some (result, skipWs { s with chars := cs.dropWhile Char.isDigit })
    else
      some (result, skipWs { s with chars := cs })

/-- The call `isLiteral(literal)`: consumes the next token and tells whether it is exactly
the one character `literal`. A punctuation character is a token by itself; any other
character starts a token that runs up to the next whitespace or punctuation; at end of file
there is no token. -/
def isLiteral (s : ValueSource) (literal : Char) : Bool × ValueSource :=
  match s.chars with
  | [] => (false, s)
  | c :: cs =>
    if s.punctuation.contains c then
      (c == literal, skipWs { s with chars := cs })
    else
      let rest := cs.dropWhile (fun d => !(s.isWhitespace d || s.punctuation.contains d))
      (false, skipWs { s with chars := rest })

end ValueSource

/-! ## The colour map object and its per-context data item -/

/-- The object state touched by the three methods. `numEntries`, `scalarRangeMin` and
`scalarRangeMax` are the `GLColorMap` base-class values behind `getNumEntries()`,
`getScalarRangeMin()` and `getScalarRangeMax()`; `keys` and `colors` are the piecewise-linear
colour function last handed to `setColors` (the table returned by `getColors()` is the
library's resampling of it to `numEntries` entries); `textureVersion` and `texturePlaneEq` are
the members of `ElevationColorMap` itself. The header declaring `textureVersion` is not among
the sources: the counter is taken as a natural number that `++` increases by one, and only
`++` and `!=` are ever applied to it. -/
structure ElevationColorMap where
  numEntries : Int
  scalarRangeMin : Scalar
  scalarRangeMax : Scalar
  keys : List Scalar
  colors : List Color
  textureVersion : Nat
  texturePlaneEq : Fin 4 → Scalar

/-- Per-context state, `ElevationColorMap::DataItem`: the texture object and the version of
the colour map it holds. -/
structure DataItem where
  textureObjectId : Nat
  textureObjectVersion : Nat
  deriving DecidableEq

/-- The GL entry points called by `bindTexture`, with the arguments that vary. -/
inductive GLCall where
  | glBindTexture (texture : Nat)
  | glTexParameteri_MIN_FILTER_LINEAR
  | glTexParameteri_MAG_FILTER_LINEAR
  | glTexParameteri_WRAP_S_CLAMP_TO_EDGE
  | glTexImage1D (width : Int) (keys : List Scalar) (colors : List Color)
  deriving DecidableEq

namespace GLCall

end GLCall

namespace ElevationColorMap

/-- Models `GLColorMap::setColors(numKeys,colors,keys,newNumEntries)` of the Vrui library:
the map becomes the resampling of the given piecewise-linear function to `newNumEntries`
entries and its scalar range becomes `[keys[0], keys[numKeys-1]]`. With no key at all the
library reads outside the array; the model keeps the old range there. -/
def setColors (self : ElevationColorMap) (colors : List Color) (keys : List Scalar)
    (newNumEntries : Int) : ElevationColorMap :=
  { self with
    numEntries := newNumEntries
    keys := keys
    colors := colors
    scalarRangeMin := keys.headD self.scalarRangeMin
    scalarRangeMax := keys.getLastD self.scalarRangeMax }

/-! ### `load` -/

/-- One pass through the body of the `.cpt` loop (lines 105-120): the key pushed to
`heightMapKeys`, the colour pushed to `heightMapColors`, and the reader afterwards. Each
`std::cout << ... << heightMapSource.readNumber()` statement of the source reads one more
number from the source and only prints it; these reads are the bindings to `_`. -/
def cptRecord (src : ValueSource) (line : Int) :
    Except LoadException (Scalar × Color × ValueSource) :=
  match src.readNumber with
  | none => .error .numberError
  | some (key, src) =>
  match src.readNumber with
  | none => .error .numberError
  | some (_, src) =>
  match src.readNumber with
  | none => .error .numberError
  | some (r, src) =>
  match src.readNumber with
  | none => .error .numberError
  | some (_, src) =>
  match src.readNumber with
  | none => .error .numberError
  | some (g, src) =>
  match src.readNumber with
  | none => .error .numberError
  | some (_, src) =>
  match src.readNumber with
  | none => .error .numberError
  | some (b, src) =>
  match src.readNumber with
  | none => .error .numberError
  | some (_, src) =>
  if !(src.isLiteral '\n').1 then .error (.formatError line)
  else .ok (key, ⟨r / 255, g / 255, b / 255, 1⟩, (src.isLiteral '\n').2)

/-- One pass through the body of the loop of the other branch (lines 130-147), with the
printing reads as in `cptRecord`. -/
def commaRecord (src : ValueSource) (line : Int) :
    Except LoadException (Scalar × Color × ValueSource) :=
  match src.readNumber with
  | none => .error .numberError
  | some (key, src) =>
  match src.readNumber with
  | none => .error .numberError
  | some (_, src) =>
  if !(src.isLiteral ',').1 then .error (.formatError line)
  else
  match (src.isLiteral ',').2.readNumber with
  | none => .error .numberError
  | some (r, src) =>
  match src.readNumber with
  | none => .error .numberError
  | some (_, src) =>
  match src.readNumber with
  | none => .error .numberError
  | some (g, src) =>
  match src.readNumber with
  | none => .error .numberError
  | some (_, src) =>
  match src.readNumber with
  | none => .error .numberError
  | some (b, src) =>
  match src.readNumber with
  | none => .error .numberError
  | some (_, src) =>
  if !(src.isLiteral '\n').1 then .error (.formatError line)
  else .ok (key, ⟨r, g, b, 1⟩, (src.isLiteral '\n').2)

/-- The `while(!heightMapSource.eof())` loop of the `.cpt` branch (lines 103-121), with the
two local vectors and the line counter as accumulators. -/
def loadCptLoop : Nat → ValueSource → List Scalar → List Color → Int →
    Except LoadException (List Scalar × List Color)
  | 0, _, _, _, _ => .error .fuelExhausted
  | fuel + 1, src, heightMapKeys, heightMapColors, line =>
    if src.eof then .ok (heightMapKeys, heightMapColors)
    else
      match cptRecord src line with
      | .error e => .error e
      | .ok (key, color, src) =>
        loadCptLoop fuel src (heightMapKeys ++ [key]) (heightMapColors ++ [color]) (line + 1)

/-- The `while(!heightMapSource.eof())` loop of the other branch (lines 128-148). -/
def loadCommaLoop : Nat → ValueSource → List Scalar → List Color → Int →
    Except LoadException (List Scalar × List Color)
  | 0, _, _, _, _ => .error .fuelExhausted
  | fuel + 1, src, heightMapKeys, heightMapColors, line =>
    if src.eof then .ok (heightMapKeys, heightMapColors)
    else
      match commaRecord src line with
      | .error e => .error e
      | .ok (key, color, src) =>
        loadCommaLoop fuel src (heightMapKeys ++ [key]) (heightMapColors ++ [color]) (line + 1)

/-- Lines 95-149 of `load`: fills the two local vectors from the source. `isCpt` is the
value of `Misc::hasCaseExtension(heightMapName,".cpt")`. Every pass of either loop that
does not throw consumes at least one character, so one unit of fuel per unread character
(and one for the final end-of-file test) is enough. -/
def readHeightMap (isCpt : Bool) (heightMapSource : ValueSource) :
    Except LoadException (List Scalar × List Color) :=
  if isCpt then
    let src := (heightMapSource.setPunctuation ['\n']).skipWs
    loadCptLoop (src.chars.length + 1) src [] [] 1
  else
    let src := (heightMapSource.setPunctuation [',', '\n']).skipWs
    loadCommaLoop (src.chars.length + 1) src [] [] 1

/-- The method `load` (lines 60-163). `heightMapSource` is the reader on the opened file.
The result pairs the exception thrown, if any, with the object state afterwards; the object
is only written by `setColors` and `++textureVersion`, after both loops. -/
def load (isCpt : Bool) (heightMapSource : ValueSource) (self : ElevationColorMap) :
    Option LoadException × ElevationColorMap :=
  match readHeightMap isCpt heightMapSource with
  | .error e => (some e, self)
  | .ok (heightMapKeys, heightMapColors) =>
    (none, { self.setColors heightMapColors heightMapKeys 256 with
             textureVersion := self.textureVersion + 1 })

/-! ### `calcTexturePlane` -/

/-- The method `calcTexturePlane(const Plane&)` (lines 165-175). -/
def calcTexturePlane (self : ElevationColorMap) (basePlane : Plane) : ElevationColorMap :=
  let bpn := basePlane.normal
  let bpo := basePlane.offset
  let hms : Scalar := ((self.numEntries - 1 : Int) : Scalar) /
    ((self.scalarRangeMax - self.scalarRangeMin) * (self.numEntries : Scalar))
  let hmo : Scalar := (1 / 2) / (self.numEntries : Scalar) - hms * self.scalarRangeMin
  { self with
    texturePlaneEq := ![bpn 0 * hms, bpn 1 * hms, bpn 2 * hms, -bpo * hms + hmo] }

/-- The texture coordinate `a*x+b*y+c*z+d` that the stored plane equation gives a
camera-space point. -/
def texCoord (self : ElevationColorMap) (x y z : Scalar) : Scalar :=
  self.texturePlaneEq 0 * x + self.texturePlaneEq 1 * y + self.texturePlaneEq 2 * z
    + self.texturePlaneEq 3

/-! ### `bindTexture` -/

/-- The method `bindTexture` (lines 183-202): the GL calls issued, in order, and the data
item of the current context afterwards. -/
def bindTexture (self : ElevationColorMap) (dataItem : DataItem) : List GLCall × DataItem :=
  let bind := [GLCall.glBindTexture dataItem.textureObjectId]
  if dataItem.textureObjectVersion ≠ self.textureVersion then
    (bind ++ [GLCall.glTexParameteri_MIN_FILTER_LINEAR,
              GLCall.glTexParameteri_MAG_FILTER_LINEAR,
              GLCall.glTexParameteri_WRAP_S_CLAMP_TO_EDGE,
              GLCall.glTexImage1D self.numEntries self.keys self.colors],
     { dataItem with textureObjectVersion := self.textureVersion })
  else
    (bind, dataItem)

end ElevationColorMap

/-- Elevation of a camera-space point above a plane: `n.(x,y,z) - o`. -/
def Plane.elevation (p : Plane) (x y z : Scalar) : Scalar :=
  p.normal 0 * x + p.normal 1 * y + p.normal 2 * z - p.offset

/-! ## Concrete inputs used by the examples -/

/-- A reader freshly opened on a file with the given text: nothing consumed, no punctuation
declared. -/
def fileOf (text : String) : ValueSource := ⟨text.toList, []⟩

/-- The two-line file of the end-to-end scenario, in the comma form. -/
def csvExample : ValueSource := fileOf "0,255,0,0\n10,0,0,255\n"

/-- The same two stops in the whitespace form of a `.cpt` file. -/
def cptExample : ValueSource := fileOf "0 255 0 0\n10 0 0 255\n"

/-- A one-line `.cpt` file whose line has its four fields and no newline after them. -/
def cptUnterminated : ValueSource := fileOf "0 255 0 0"

/-- A one-line comma file whose line has its four fields and no newline after them. -/
def csvUnterminated : ValueSource := fileOf "0,255,0,0"

/-- A two-line `.cpt` file whose second line lacks its newline. -/
def cptSecondUnterminated : ValueSource := fileOf "0 255 0 0\n10 0 0 255"

/-- The two stops of `cptExample` with one extra number after every field. -/
def cptDoubled : ValueSource := fileOf "0 9 255 9 0 9 0 9\n10 9 0 9 0 9 255 9\n"

/-- The two stops of `csvExample` (channels in `0..1`) with one extra number after every
field. -/
def csvDoubled : ValueSource := fileOf "0 9,1 9 0 9 0 9\n10 9,0 9 0 9 1 9\n"

/-- A `.cpt` file from which the loop takes exactly one record. -/
def oneRecordFile : ValueSource := fileOf "0 0 0 0 0 0 0 0\n"

/-- Eight numbers and then the end of the file where the `.cpt` loop wants a newline. -/
def eightNumbersUnterminated : ValueSource := fileOf "1 2 3 4 5 6 7 8"

/-- An object that never loaded anything. -/
def blankMap : ElevationColorMap := ⟨0, 0, 0, [], [], 0, ![0, 0, 0, 0]⟩

/-- The red-to-blue ramp with keys `0` and `10` resampled to 256 entries. -/
def redBlueMap : ElevationColorMap :=
  blankMap.setColors [⟨1, 0, 0, 1⟩, ⟨0, 0, 1, 1⟩] [0, 10] 256

/-- The plane `z = 0`, so that a point's elevation is its `z`. -/
def groundPlane : Plane := ⟨![0, 0, 1], 0⟩

/-- A data item whose texture already holds version `0`. -/
def freshItem : DataItem := ⟨7, 0⟩

/-- A colour map that has been reloaded three times. -/
def staleMap : ElevationColorMap := { redBlueMap with textureVersion := 3 }

end SARndbox

namespace SARndbox

open ElevationColorMap

/-! ## The reader and the loops of `load` -/

/-- Skipping whitespace only drops characters. -/
theorem skipWs_length_le (s : ValueSource) : s.skipWs.chars.length ≤ s.chars.length := by
  simp only [ValueSource.skipWs]
  exact (List.dropWhile_sublist _).length_le

/-- The same bound for a reader given by its two fields. -/
theorem skipWs_mk_length_le (cs p : List Char) :
    (ValueSource.skipWs ⟨cs, p⟩).chars.length ≤ cs.length :=
  skipWs_length_le ⟨cs, p⟩

/-- A list splits into its longest prefix satisfying `p` and the rest. -/
theorem takeWhile_dropWhile_length (p : Char → Bool) (l : List Char) :
    (l.takeWhile p).length + (l.dropWhile p).length = l.length := by
  rw [← List.length_append, List.takeWhile_append_dropWhile]

/-- Dropping a prefix does not lengthen a list. -/
theorem dropWhile_length_le (p : Char → Bool) (l : List Char) :
    (l.dropWhile p).length ≤ l.length :=
  (List.dropWhile_sublist p).length_le

/-- A successful `readNumber` consumes at least one character. -/
theorem readNumber_length_lt (s s' : ValueSource) (v : Scalar)
    (h : s.readNumber = some (v, s')) : s'.chars.length < s.chars.length := by
  unfold ValueSource.readNumber at h
  simp only at h
  generalize hcs1 : (if (s.chars.head? == some '-' || s.chars.head? == some '+') = true
    then s.chars.tail else s.chars) = cs1 at h
  have h1 : cs1.length ≤ s.chars.length := by
    rw [← hcs1]; split
    · simp
    · exact le_refl _
  have h2 := takeWhile_dropWhile_length Char.isDigit cs1
  generalize hip : cs1.takeWhile Char.isDigit = ip at h h2
  generalize hcs2 : cs1.dropWhile Char.isDigit = cs2 at h h2
  generalize hfp : (if (cs2.head? == some '.') = true then cs2.tail.takeWhile Char.isDigit
    else []) = fp at h
  generalize hcs3 : (if (cs2.head? == some '.') = true then cs2.tail.dropWhile Char.isDigit
    else cs2) = cs3 at h
  have h3 : fp.length + cs3.length ≤ cs2.length := by
    rw [← hfp, ← hcs3]; split
    · rw [takeWhile_dropWhile_length]; simp
    · simp
  split at h
  · cases h
  · rename_i hne
    have hpos : 0 < ip.length + fp.length := by
      rcases ip with _ | ⟨a, ip⟩
      · rcases fp with _ | ⟨b, fp⟩
        · simp at hne
        · simp
      · simp
    split at h
    · generalize hcs4 : (if (cs3.tail.head? == some '-' || cs3.tail.head? == some '+') = true
        then cs3.tail.tail else cs3.tail) = cs4 at h
      have h4 : cs4.length ≤ cs3.length := by
        rw [← hcs4]; split
        · simp; omega
        · simp
      split at h
      · cases h
      · simp only [Option.some.injEq, Prod.mk.injEq] at h
        obtain ⟨_, rfl⟩ := h
        have h5 := skipWs_mk_length_le (cs4.dropWhile Char.isDigit) s.punctuation
        have h6 := dropWhile_length_le Char.isDigit cs4
        omega
    · simp only [Option.some.injEq, Prod.mk.injEq] at h
      obtain ⟨_, rfl⟩ := h
      have h5 := skipWs_mk_length_le cs3 s.punctuation
      omega

/-- The token consumed by `isLiteral` never gives characters back. -/
theorem isLiteral_length_le (s : ValueSource) (c : Char) :
    (s.isLiteral c).2.chars.length ≤ s.chars.length := by
  unfold ValueSource.isLiteral
  split
  · simp
  · rename_i d cs hcs
    rw [hcs]
    split
    · have := skipWs_mk_length_le cs s.punctuation
      simp only [List.length_cons]; omega
    · have := skipWs_mk_length_le
        (cs.dropWhile (fun d => !(s.isWhitespace d || s.punctuation.contains d))) s.punctuation
      have h2 := dropWhile_length_le
        (fun d => !(s.isWhitespace d || s.punctuation.contains d)) cs
      simp only [List.length_cons]; omega

/-- An accepted `.cpt` record consumes at least one character. -/
theorem cptRecord_length_lt (src src' : ValueSource) (line : Int) (k : Scalar) (c : Color)
    (h : cptRecord src line = .ok (k, c, src')) : src'.chars.length < src.chars.length := by
  unfold cptRecord at h
  split at h
  · cases h
  rename_i k1 s1 h1
  have l1 := readNumber_length_lt _ _ _ h1
  iterate 7
    split at h
    · cases h
    rename_i hh
    have := readNumber_length_lt _ _ _ hh
  split at h
  · cases h
  simp only [Except.ok.injEq, Prod.mk.injEq] at h
  obtain ⟨_, _, rfl⟩ := h
  have := isLiteral_length_le ‹ValueSource› '\n'
  omega

/-- An accepted record of the other branch consumes at least one character. -/
theorem commaRecord_length_lt (src src' : ValueSource) (line : Int) (k : Scalar) (c : Color)
    (h : commaRecord src line = .ok (k, c, src')) : src'.chars.length < src.chars.length := by
  unfold commaRecord at h
  split at h
  · cases h
  rename_i k1 s1 h1
  have l1 := readNumber_length_lt _ _ _ h1
  split at h
  · cases h
  rename_i k2 s2 h2
  have l2 := readNumber_length_lt _ _ _ h2
  split at h
  · cases h
  have l3 := isLiteral_length_le s2 ','
  iterate 6
    split at h
    · cases h
    rename_i hh
    have := readNumber_length_lt _ _ _ hh
  split at h
  · cases h
  simp only [Except.ok.injEq, Prod.mk.injEq] at h
  obtain ⟨_, _, rfl⟩ := h
  have := isLiteral_length_le ‹ValueSource› '\n'
  omega

/-- The body of the `.cpt` loop only throws the two exceptions of the source. -/
theorem cptRecord_ne_fuelExhausted (src : ValueSource) (line : Int) :
    cptRecord src line ≠ .error .fuelExhausted := by
  unfold cptRecord
  intro h
  iterate 8
    split at h
    · cases h
  split at h <;> cases h

/-- The body of the other loop only throws the two exceptions of the source. -/
theorem commaRecord_ne_fuelExhausted (src : ValueSource) (line : Int) :
    commaRecord src line ≠ .error .fuelExhausted := by
  unfold commaRecord
  intro h
  iterate 2
    split at h
    · cases h
  split at h
  · cases h
  iterate 6
    split at h
    · cases h
  split at h <;> cases h

/-- With more fuel than unread characters the `.cpt` loop runs to its end. -/
theorem loadCptLoop_total : ∀ (fuel : Nat) (src : ValueSource) (keys : List Scalar)
    (colors : List Color) (line : Int), src.chars.length < fuel →
    loadCptLoop fuel src keys colors line ≠ .error .fuelExhausted
  | 0, _, _, _, _, h => by omega
  | fuel + 1, src, keys, colors, line, h => by
    unfold loadCptLoop
    split
    · intro hc; cases hc
    · split
      · rename_i e he
        intro hc
        simp only [Except.error.injEq] at hc
        subst hc
        exact cptRecord_ne_fuelExhausted src line he
      · rename_i key color src' he
        have := cptRecord_length_lt _ _ _ _ _ he
        exact loadCptLoop_total fuel src' _ _ _ (by omega)

/-- With more fuel than unread characters the other loop runs to its end. -/
theorem loadCommaLoop_total : ∀ (fuel : Nat) (src : ValueSource) (keys : List Scalar)
    (colors : List Color) (line : Int), src.chars.length < fuel →
    loadCommaLoop fuel src keys colors line ≠ .error .fuelExhausted
  | 0, _, _, _, _, h => by omega
  | fuel + 1, src, keys, colors, line, h => by
    unfold loadCommaLoop
    split
    · intro hc; cases hc
    · split
      · rename_i e he
        intro hc
        simp only [Except.error.injEq] at hc
        subst hc
        exact commaRecord_ne_fuelExhausted src line he
      · rename_i key color src' he
        have := commaRecord_length_lt _ _ _ _ _ he
        exact loadCommaLoop_total fuel src' _ _ _ (by omega)

/-- The fuel given by `readHeightMap` is enough: reading the file always ends, in a pair of
vectors or in one of the two exceptions of the source. -/
theorem readHeightMap_total (isCpt : Bool) (src : ValueSource) :
    readHeightMap isCpt src ≠ .error .fuelExhausted := by
  unfold readHeightMap
  split
  · exact loadCptLoop_total _ _ _ _ _ (Nat.lt_succ_self _)
  · exact loadCommaLoop_total _ _ _ _ _ (Nat.lt_succ_self _)

/-- The method `load` always returns or throws one of its two exceptions. -/
theorem load_total (isCpt : Bool) (src : ValueSource) (self : ElevationColorMap) :
    (load isCpt src self).1 ≠ some .fuelExhausted := by
  unfold load
  split
  · rename_i e he
    intro hc
    simp only [Option.some.injEq] at hc
    subst hc
    exact readHeightMap_total isCpt src he
  · simp

/-- Outcome and final state of `load` in terms of what was read from the file. -/
theorem load_eq (isCpt : Bool) (src : ValueSource) (self : ElevationColorMap) :
    (∀ e, readHeightMap isCpt src = .error e → load isCpt src self = (some e, self))
    ∧ (∀ ks cs, readHeightMap isCpt src = .ok (ks, cs) →
        load isCpt src self
          = (none, { self.setColors cs ks 256 with textureVersion := self.textureVersion + 1 })) := by
  constructor
  · intro e h
    simp [load, h]
  · intro ks cs h
    simp [load, h]

/-- The texture coordinate is the affine image `hms * h + hmo` of the elevation `h`, with the
two locals of `calcTexturePlane`. -/
theorem texCoord_calcTexturePlane (self : ElevationColorMap) (basePlane : Plane)
    (x y z : Scalar) :
    (self.calcTexturePlane basePlane).texCoord x y z
      = ((self.numEntries - 1 : Int) : Scalar) /
          ((self.scalarRangeMax - self.scalarRangeMin) * (self.numEntries : Scalar))
          * (basePlane.elevation x y z - self.scalarRangeMin)
        + (1 / 2) / (self.numEntries : Scalar) := by
  simp only [texCoord, calcTexturePlane, Plane.elevation, Matrix.cons_val_zero,
    Matrix.cons_val_one, Matrix.head_cons, Matrix.cons_val_two, Matrix.tail_cons,
    Matrix.cons_val_three]
  ring

/-- Closed form of the mapping when the range is not degenerate and there is at least one
entry: `0.5/N + ((N-1)/N) * (h - min)/(max - min)`. -/
theorem texCoord_closed_form (self : ElevationColorMap) (basePlane : Plane) (x y z : Scalar)
    (hrange : self.scalarRangeMin < self.scalarRangeMax) (hN : 1 ≤ self.numEntries) :
    (self.calcTexturePlane basePlane).texCoord x y z
      = (1 / 2) / (self.numEntries : Scalar)
        + (((self.numEntries : Scalar) - 1) / (self.numEntries : Scalar))
          * ((basePlane.elevation x y z - self.scalarRangeMin)
              / (self.scalarRangeMax - self.scalarRangeMin)) := by
  have hd : self.scalarRangeMax - self.scalarRangeMin ≠ 0 := sub_ne_zero.mpr (ne_of_gt hrange)
  have hn : (self.numEntries : Scalar) ≠ 0 := by
    have : (0 : Scalar) < (self.numEntries : Scalar) := by exact_mod_cast (by omega : 0 < self.numEntries)
    exact ne_of_gt this
  rw [texCoord_calcTexturePlane]
  push_cast
  field_simp
  ring

/-- C1: for every base plane, every scalar range with `min < max` and every entry count
`N ≥ 1`, the coefficients stored by `calcTexturePlane` send every point whose elevation is the
range minimum to `0.5/N` and every point whose elevation is the range maximum to
`1 - 0.5/N`. -/
theorem calcTexturePlane_endpoints (self : ElevationColorMap) (basePlane : Plane)
    (hrange : self.scalarRangeMin < self.scalarRangeMax) (hN : 1 ≤ self.numEntries) :
    (∀ x y z : Scalar, basePlane.elevation x y z = self.scalarRangeMin →
        (self.calcTexturePlane basePlane).texCoord x y z = (1 / 2) / (self.numEntries : Scalar))
    ∧ (∀ x y z : Scalar, basePlane.elevation x y z = self.scalarRangeMax →
        (self.calcTexturePlane basePlane).texCoord x y z
          = 1 - (1 / 2) / (self.numEntries : Scalar)) := by
  have hd : self.scalarRangeMax - self.scalarRangeMin ≠ 0 := sub_ne_zero.mpr (ne_of_gt hrange)
  have hn : (self.numEntries : Scalar) ≠ 0 := by
    have : (0 : Scalar) < (self.numEntries : Scalar) := by exact_mod_cast (by omega : 0 < self.numEntries)
    exact ne_of_gt this
  constructor
  · intro x y z h
    rw [texCoord_closed_form self basePlane x y z hrange hN, h]
    simp
  · intro x y z h
    rw [texCoord_closed_form self basePlane x y z hrange hN, h, div_self hd]
    field_simp
    ring

/-- C1 at the red-to-blue ramp (keys `0` and `10`, 256 entries) over the plane `z = 0`: the
point `(0,0,0)` maps to `0.5/256` and the point `(0,0,10)` to `1 - 0.5/256`. -/
theorem calcTexturePlane_endpoints_witness :
    (redBlueMap.calcTexturePlane groundPlane).texCoord 0 0 0
        = (1 / 2) / (redBlueMap.numEntries : Scalar)
    ∧ (redBlueMap.calcTexturePlane groundPlane).texCoord 0 0 10
        = 1 - (1 / 2) / (redBlueMap.numEntries : Scalar) :=
  ⟨(calcTexturePlane_endpoints redBlueMap groundPlane
      (by simp [redBlueMap, blankMap, setColors])
      (by simp [redBlueMap, blankMap, setColors])).1 0 0 0
      (by simp [redBlueMap, blankMap, setColors, groundPlane, Plane.elevation]),
   (calcTexturePlane_endpoints redBlueMap groundPlane
      (by simp [redBlueMap, blankMap, setColors])
      (by simp [redBlueMap, blankMap, setColors])).2 0 0 10
      (by simp [redBlueMap, blankMap, setColors, groundPlane, Plane.elevation])⟩

/-- With the data item at the current version the method reduces to its first statement. -/
theorem bindTexture_of_current (self : ElevationColorMap) (dataItem : DataItem)
    (h : dataItem.textureObjectVersion = self.textureVersion) :
    self.bindTexture dataItem = ([GLCall.glBindTexture dataItem.textureObjectId], dataItem) := by
  simp [bindTexture, h]

/-- C8 as stated fails: with the data item already at the current version, `bindTexture`
still issues one GL call, `glBindTexture`. -/
theorem bindTexture_current_not_silent :
    freshItem.textureObjectVersion = blankMap.textureVersion
    ∧ (blankMap.bindTexture freshItem).1 = [GLCall.glBindTexture 7]
    ∧ (blankMap.bindTexture freshItem).1 ≠ [] := by
  refine ⟨rfl, ?_, ?_⟩ <;> simp [bindTexture, freshItem, blankMap]

/-- C8 amended: with the data item already at the current version, `bindTexture` issues
exactly one GL call, the `glBindTexture` of the data item's texture object (no
`glTexParameteri`, no `glTexImage1D`), and leaves the data item unchanged. -/
theorem bindTexture_current_binds_only (self : ElevationColorMap) (dataItem : DataItem)
    (h : dataItem.textureObjectVersion = self.textureVersion) :
    (self.bindTexture dataItem).1 = [GLCall.glBindTexture dataItem.textureObjectId]
    ∧ (self.bindTexture dataItem).2 = dataItem := by
  rw [bindTexture_of_current self dataItem h]
  exact ⟨rfl, rfl⟩

/-- C8 amended, at a data item and a colour map both at version `0`. -/
theorem bindTexture_current_binds_only_witness :
    (blankMap.bindTexture freshItem).1 = [GLCall.glBindTexture freshItem.textureObjectId]
    ∧ (blankMap.bindTexture freshItem).2 = freshItem :=
  bindTexture_current_binds_only blankMap freshItem rfl

/-! ## `load` -/

/-- C2: if `load` returns normally, `textureVersion` is the previous value plus one and the
stored key and colour sequences are the ones just read from the file; if `load` throws (a
format error or any other exception), the whole object state, `textureVersion` and the
stored sequences included, is what it was before the call. -/
theorem load_commits_or_keeps (isCpt : Bool) (src : ValueSource) (self : ElevationColorMap) :
    ((load isCpt src self).1 = none →
        (load isCpt src self).2.textureVersion = self.textureVersion + 1
        ∧ readHeightMap isCpt src
            = .ok ((load isCpt src self).2.keys, (load isCpt src self).2.colors))
    ∧ (∀ e : LoadException, (load isCpt src self).1 = some e →
        (load isCpt src self).2 = self) := by
  obtain ⟨herr, hok⟩ := load_eq isCpt src self
  cases hr : readHeightMap isCpt src with
  | error e =>
    rw [herr e hr]
    simp
  | ok r =>
    obtain ⟨ks, cs⟩ := r
    rw [hok ks cs hr]
    simp [setColors]

/-- C2 on a map at version 3: a file the loop accepts moves it to version 4 and stores what
was read; a file with a missing terminator raises the format error for line 1 and leaves
the map as it was. -/
theorem load_commits_or_keeps_witness :
    ((load true oneRecordFile staleMap).2.textureVersion = staleMap.textureVersion + 1
      ∧ readHeightMap true oneRecordFile
          = .ok ((load true oneRecordFile staleMap).2.keys,
                 (load true oneRecordFile staleMap).2.colors))
    ∧ (load true eightNumbersUnterminated staleMap).1 = some (.formatError 1)
    ∧ (load true eightNumbersUnterminated staleMap).2 = staleMap :=
  ⟨(load_commits_or_keeps true oneRecordFile staleMap).1 (by decide),
   by decide,
   (load_commits_or_keeps true eightNumbersUnterminated staleMap).2 (.formatError 1)
     (by decide)⟩

/-- C4 on the code: the two-line file of the scenario is rejected in both forms, by the
`NumberError` of a read that meets the separator or the newline, and nothing is stored. What
both loops accept is a line with one extra number after every field: there the stops come
out as C4 describes, keys `[0, 10]`, channels divided by 255 in the `.cpt` branch only. -/
theorem load_rejects_documented_files :
    (load false csvExample blankMap).1 = some .numberError
    ∧ (load true cptExample blankMap).1 = some .numberError
    ∧ (load false csvExample blankMap).2.keys = []
    ∧ (load true cptDoubled blankMap).1 = none
    ∧ (load true cptDoubled blankMap).2.keys = [0, 10]
    ∧ (load true cptDoubled blankMap).2.colors = [⟨1, 0, 0, 1⟩, ⟨0, 0, 1, 1⟩]
    ∧ (load false csvDoubled blankMap).1 = none
    ∧ (load false csvDoubled blankMap).2.keys = [0, 10]
    ∧ (load false csvDoubled blankMap).2.colors = [⟨1, 0, 0, 1⟩, ⟨0, 0, 1, 1⟩] := by
  refine ⟨by decide, by decide, by decide, by decide, by decide!, by decide!, by decide,
    by decide!, by decide!⟩

/-- C6 on the code: a line with its key and three colour fields and no newline raises the
reader's `NumberError`, which carries no line number, not the format error for that line;
so does a second such line after a first well-formed one. The format error for line 1 is
raised only when eight numbers precede the missing newline. -/
theorem load_unterminated_raises_numberError :
    (load true cptUnterminated blankMap).1 = some .numberError
    ∧ (load false csvUnterminated blankMap).1 = some .numberError
    ∧ (load true cptSecondUnterminated blankMap).1 = some .numberError
    ∧ (load true cptUnterminated blankMap).1 ≠ some (.formatError 1)
    ∧ (load true eightNumbersUnterminated blankMap).1 = some (.formatError 1) := by
  refine ⟨by decide, by decide, by decide, by decide, by decide⟩

end SARndbox
